import Mathlib

/-!
Shallow embedding of the fraud risk assessment engine
(`services/anti-fraud-service/src/services/fraud_detection.py` and
`services/anti-fraud-service/src/models/fraud_models.py`) over exact
rational arithmetic, together with theorems settling the spec claims.

Monetary amounts, scores and probabilities are Python floats in the source;
they are modelled as `ℚ`. Database, cache and model collaborators are
modelled as oracles (`Except String` valued environment fields): an `.error`
value models the call raising an exception with that message. The haversine
distance (transcendental, on floats) is modelled as an abstract environment
function, since no claim depends on its values.
-/

/-- `RiskLevel` enum of `fraud_models.py`. -/
inductive RiskLevel where
  | LOW
  | MEDIUM
  | HIGH
  | CRITICAL
deriving DecidableEq

/-- `FraudAction` enum of `fraud_models.py`. -/
inductive FraudAction where
  | APPROVE
  | HOLD
  | REJECT
  | MANUAL_REVIEW
deriving DecidableEq

/-- `TransactionType` enum of `fraud_models.py`. -/
inductive TransactionType where
  | PAYMENT
  | WITHDRAWAL
  | DEPOSIT
  | REFUND
deriving DecidableEq

/-- `Money` of `fraud_models.py`: raw field data. Pydantic field validation
(`amount` gt=0, `currency` exactly 3 characters, `precision` between 0 and 8)
is modelled by the smart constructor `mkMoney` below. -/
structure Money where
  amount : ℚ
  currency : String
  precision : Int
deriving DecidableEq

/-- The message of the pydantic `ValidationError` raised when a `Money`
field constraint is violated (modelled as a single string). -/
def moneyValidationMsg : String := "validation error for Money"

/-- Pydantic construction of `Money`: raises (returns `.error`) unless
`amount > 0`, `currency` has exactly 3 characters and `0 <= precision <= 8`. -/
def mkMoney (amount : ℚ) (currency : String) (precision : Int) : Except String Money :=
  if 0 < amount ∧ currency.length = 3 ∧ 0 ≤ precision ∧ precision ≤ 8 then
    .ok ⟨amount, currency, precision⟩
  else
    .error moneyValidationMsg

/-- `GeoLocation` of `fraud_models.py` (fields used by the engine). -/
structure GeoLocation where
  latitude : ℚ
  longitude : ℚ
  country : String
  city : Option String
  region : Option String
deriving DecidableEq

/-- `DeviceFingerprint` of `fraud_models.py` (fields used by the engine). -/
structure DeviceFingerprint where
  fingerprint : String
  user_agent : String
  ip_address : String
deriving DecidableEq

/-- UTC timestamp, modelled at minute resolution. -/
structure DateTime where
  epochMinutes : Nat
deriving DecidableEq

/-- `datetime.hour`: UTC hour of day. -/
def DateTime.hour (t : DateTime) : Nat := t.epochMinutes / 60 % 24

/-- `Transaction` of `fraud_models.py` (fields used by the engine). -/
structure Transaction where
  id : String
  user_id : String
  type : TransactionType
  amount : Money
  timestamp : DateTime
  device_fingerprint : DeviceFingerprint
  geolocation : GeoLocation
  recipient_id : Option String
deriving DecidableEq

/-- `UserRiskProfile` of `fraud_models.py`. -/
structure UserRiskProfile where
  user_id : String
  base_score : ℚ
  transaction_history_score : ℚ
  age_score : ℚ
  verification_level : String
  dispute_rate : ℚ
  velocity_score : ℚ
  last_updated : DateTime
  total_transactions : Nat
  total_amount : Money
  average_transaction_amount : Money
  account_age_days : Nat
  failed_attempts_24h : Nat
  risk_level : RiskLevel
deriving DecidableEq

/-- Primitive JSON-like value appearing in rule `details` mappings. -/
inductive DPrim where
  | str (s : String)
  | num (q : ℚ)
  | bool (b : Bool)
deriving DecidableEq

/-- Value of a rule `details` mapping: a primitive or a one-level nested
object (the source nests exactly one level, in the velocity rule). -/
inductive DVal where
  | prim (p : DPrim)
  | obj (fields : List (String × DPrim))
deriving DecidableEq

/-- Shorthand: string detail value. -/
def DVal.s (x : String) : DVal := .prim (.str x)

/-- Shorthand: numeric detail value. -/
def DVal.n (q : ℚ) : DVal := .prim (.num q)

/-- Shorthand: boolean detail value. -/
def DVal.b (x : Bool) : DVal := .prim (.bool x)

/-- `FraudRuleResult` of `fraud_models.py`. `details` is modelled as an
association list in insertion order. -/
structure FraudRuleResult where
  rule_name : String
  triggered : Bool
  score : ℚ
  details : List (String × DVal)
  execution_time_ms : ℚ
deriving DecidableEq

/-- `VelocityCheck` of `fraud_models.py` (fields used by the engine). -/
structure VelocityCheck where
  window_minutes : Nat
  max_transactions : Int
  max_amount : Option Money
deriving DecidableEq

/-- One entry of the rule catalog built by `_initialize_fraud_rules`. -/
structure RuleConfig where
  name : String
  description : String
  weight : ℚ
  action : FraudAction
  enabled : Bool
deriving DecidableEq

/-- `FraudAssessment` of `fraud_models.py` (fields set by `assess_transaction`;
`assessment_time_ms` is not modelled and carried as 0). -/
structure FraudAssessment where
  id : String
  user_id : String
  transaction_id : Option String
  score : ℚ
  risk_level : RiskLevel
  rules : List FraudRuleResult
  ml_score : Option ℚ
  action : FraudAction
  reason : String
  confidence : ℚ
  assessment_time_ms : ℚ
  requires_manual_review : Bool
deriving DecidableEq

/-- `FraudDetectionRequest` of `fraud_models.py` (fields used). -/
structure FraudDetectionRequest where
  user_id : String
  transaction : Option Transaction
  force_assessment : Bool
deriving DecidableEq

/-- `FraudDetectionResponse` of `fraud_models.py`. Timing is carried as 0. -/
structure FraudDetectionResponse where
  success : Bool
  assessment : Option FraudAssessment
  error : Option String
  processing_time_ms : ℚ
  correlation_id : String
deriving DecidableEq

/-- `np.clip(x, 0, 1)` on exact rationals. -/
def clip01 (x : ℚ) : ℚ := min (max x 0) 1

/-- Velocity catalog entry for `velocity_check` in `_initialize_fraud_rules`. -/
def velocityCfg : RuleConfig :=
  ⟨"VELOCITY_CHECK", "Check transaction velocity limits", 0.3, .HOLD, true⟩

/-- Catalog entry for `amount_anomaly` in `_initialize_fraud_rules`. -/
def amountCfg : RuleConfig :=
  ⟨"AMOUNT_ANOMALY", "Detect unusual transaction amounts", 0.25, .MANUAL_REVIEW, true⟩

/-- Catalog entry for `geolocation_anomaly` in `_initialize_fraud_rules`. -/
def geoCfg : RuleConfig :=
  ⟨"GEOLOCATION_ANOMALY", "Detect unusual geographic locations", 0.2, .HOLD, true⟩

/-- Catalog entry for `device_fingerprint` in `_initialize_fraud_rules`. -/
def deviceCfg : RuleConfig :=
  ⟨"DEVICE_FINGERPRINT", "Check for new or suspicious devices", 0.15, .MANUAL_REVIEW, true⟩

/-- Catalog entry for `time_pattern` in `_initialize_fraud_rules`. -/
def timeCfg : RuleConfig :=
  ⟨"TIME_PATTERN", "Detect unusual transaction timing", 0.1, .MANUAL_REVIEW, true⟩

/-- `_initialize_fraud_rules`: the rule catalog as an ordered association
list (Python dicts preserve insertion order). -/
def fraud_rules : List (String × RuleConfig) :=
  [("velocity_check", velocityCfg),
   ("amount_anomaly", amountCfg),
   ("geolocation_anomaly", geoCfg),
   ("device_fingerprint", deviceCfg),
   ("time_pattern", timeCfg)]

/-- `self.velocity_checks` configured in `__init__`. -/
def velocity_checks : List (String × VelocityCheck) :=
  [("hourly", ⟨60, 10, none⟩),
   ("daily", ⟨1440, 50, some ⟨10000, "USD", 2⟩⟩),
   ("weekly", ⟨10080, 200, some ⟨50000, "USD", 2⟩⟩)]

/-- `rule_score = sum(result.score for result in rule_results)`. -/
def ruleScoreSum (rs : List FraudRuleResult) : ℚ := (rs.map (·.score)).sum

/-- `_calculate_final_score`: fuse weighted rule scores with the optional
ML score and clip to [0,1]. -/
def calculateFinalScore (rule_results : List FraudRuleResult) (ml_score : Option ℚ) : ℚ :=
  let rule_score := ruleScoreSum rule_results
  let final_score :=
    match ml_score with
    | some m => rule_score * 0.6 + m * 0.4
    | none => rule_score
  clip01 final_score

/-- `_determine_risk_level`. -/
def determineRiskLevel (score : ℚ) : RiskLevel :=
  if score ≥ 0.8 then .CRITICAL
  else if score ≥ 0.6 then .HIGH
  else if score ≥ 0.3 then .MEDIUM
  else .LOW

/-- `_determine_action` (the `risk_level` parameter is received but unused,
as in the source). -/
def determineAction (score : ℚ) (_risk_level : RiskLevel)
    (rule_results : List FraudRuleResult) : FraudAction :=
  if score ≥ 0.8 then .REJECT
  else if score ≥ 0.6 then .HOLD
  else if score ≥ 0.3 then
    if rule_results.any (fun r => r.triggered && decide (r.score > 0.5)) then
      .MANUAL_REVIEW
    else .APPROVE
  else .APPROVE

/-- `sum(result.score for result in rule_results if result.triggered)`. -/
def triggeredScoreSum (rs : List FraudRuleResult) : ℚ :=
  ((rs.filter (·.triggered)).map (·.score)).sum

/-- `_calculate_confidence`. -/
def calculateConfidence (rule_results : List FraudRuleResult) (ml_score : Option ℚ) : ℚ :=
  if rule_results.isEmpty && ml_score.isNone then 0
  else
    let rule_confidence := triggeredScoreSum rule_results
    let indicators :=
      (if rule_confidence > 0 then [rule_confidence] else [])
        ++ (match ml_score with | some m => [m] | none => [])
    match indicators with
    | [] => 0.5
    | [x] => x
    | x :: y :: rest =>
        let xs := x :: y :: rest
        (xs.sum / (xs.length : ℚ))
          * (1 - ((y :: rest).foldl max x - (y :: rest).foldl min x))

/-- Left-pads a fractional part to 3 digits. -/
def pad3 (n : Nat) : String :=
  if n < 10 then "00" ++ toString n
  else if n < 100 then "0" ++ toString n
  else toString n

/-- Python `f-string` formatting `X.XXX` with 3 decimal places, modelled with
round-half-up on exact rationals. -/
def fmt3 (q : ℚ) : String :=
  if q < 0 then
    let n := (⌊(-q) * 1000 + 1/2⌋).toNat
    "-" ++ toString (n / 1000) ++ "." ++ pad3 (n % 1000)
  else
    let n := (⌊q * 1000 + 1/2⌋).toNat
    toString (n / 1000) ++ "." ++ pad3 (n % 1000)

/-- `_generate_assessment_reason`. -/
def generateAssessmentReason (rule_results : List FraudRuleResult)
    (ml_score : Option ℚ) (final_score : ℚ) : String :=
  let triggered := rule_results.filter (·.triggered)
  let reasons :=
    (if triggered.isEmpty then []
     else ["Rules triggered: " ++ String.intercalate ", " (triggered.map (·.rule_name))])
      ++ (match ml_score with
          | some m => ["ML score: " ++ fmt3 m]
          | none => [])
      ++ ["Final score: " ++ fmt3 final_score]
  String.intercalate "; " reasons

/-- Loop body of `_check_velocity_rules`: iterates the configured velocity
windows in order, threading the `(triggered, score, details)` accumulator.
`count` and `amount` model `_get_transaction_count_in_window` and
`_get_transaction_amount_in_window` for the transaction's user and timestamp,
indexed by window minutes; `.error` models the query raising. -/
def velocityLoop (count : Nat → Except String Int) (amount : Nat → Except String ℚ) :
    List (String × VelocityCheck) → Bool → ℚ → List (String × DVal) →
    Except String (Bool × ℚ × List (String × DVal))
  | [], triggered, score, details => .ok (triggered, score, details)
  | (period, vc) :: rest, triggered, score, details =>
    match count vc.window_minutes with
    | .error e => .error e
    | .ok c =>
      let acc :=
        if c > vc.max_transactions then
          (true, max score 0.8,
           details ++ [(period, DVal.obj
             [("count", DPrim.num (c : ℚ)),
              ("limit", DPrim.num (vc.max_transactions : ℚ)),
              ("exceeded", DPrim.bool true)])])
        else (triggered, score, details)
      match vc.max_amount with
      | none => velocityLoop count amount rest acc.1 acc.2.1 acc.2.2
      | some ma =>
        match amount vc.window_minutes with
        | .error e => .error e
        | .ok total =>
          if total > ma.amount then
            velocityLoop count amount rest true (max acc.2.1 0.9)
              (acc.2.2 ++ [(period ++ "_amount", DVal.obj
                [("total", DPrim.num total),
                 ("limit", DPrim.num ma.amount),
                 ("exceeded", DPrim.bool true)])])
          else velocityLoop count amount rest acc.1 acc.2.1 acc.2.2

/-- `_check_velocity_rules`. -/
def checkVelocityRules (count : Nat → Except String Int)
    (amount : Nat → Except String ℚ) (cfg : RuleConfig) :
    Except String FraudRuleResult :=
  match velocityLoop count amount velocity_checks false 0 [] with
  | .error e => .error e
  | .ok (triggered, score, details) =>
      .ok ⟨cfg.name, triggered, score * cfg.weight, details, 0⟩

/-- `_check_amount_anomaly` (pure: consults only the transaction and the
profile). The source names the normalized deviation `z_score`. -/
def checkAmountAnomaly (tx : Transaction) (profile : UserRiskProfile)
    (cfg : RuleConfig) : FraudRuleResult :=
  if profile.total_transactions > 0 then
    let avg_amount := profile.average_transaction_amount.amount
    let current_amount := tx.amount.amount
    if avg_amount > 0 then
      let z_score := |current_amount - avg_amount| / avg_amount
      let acc : Bool × ℚ := if z_score > 3 then (true, min 0.8 (z_score / 5)) else (false, 0)
      ⟨cfg.name, acc.1, acc.2 * cfg.weight,
       [("current_amount", DVal.n current_amount),
        ("average_amount", DVal.n avg_amount),
        ("z_score", DVal.n z_score),
        ("threshold", DVal.n 3.0)], 0⟩
    else ⟨cfg.name, false, 0, [], 0⟩
  else ⟨cfg.name, false, 0, [], 0⟩

/-- `_check_geolocation_anomaly`. `typical` models
`_get_user_typical_locations` for the transaction's user; `dist` models
`_calculate_distance` (haversine). -/
def checkGeolocationAnomaly (typical : Except String (List (ℚ × ℚ)))
    (dist : ℚ → ℚ → ℚ → ℚ → ℚ) (tx : Transaction) (cfg : RuleConfig) :
    Except String FraudRuleResult :=
  match typical with
  | .error e => .error e
  | .ok locs =>
    match locs with
    | [] => .ok ⟨cfg.name, false, 0, [("status", DVal.s "no_location_history")], 0⟩
    | l :: ls =>
      let d0 := dist tx.geolocation.latitude tx.geolocation.longitude l.1 l.2
      let min_distance := ls.foldl
        (fun acc loc => min acc (dist tx.geolocation.latitude tx.geolocation.longitude loc.1 loc.2)) d0
      let acc : Bool × ℚ :=
        if min_distance > 1000 then (true, min 0.7 (min_distance / 5000)) else (false, 0)
      .ok ⟨cfg.name, acc.1, acc.2 * cfg.weight,
        [("current_location", DVal.obj
           [("lat", DPrim.num tx.geolocation.latitude),
            ("lon", DPrim.num tx.geolocation.longitude),
            ("country", DPrim.str tx.geolocation.country)]),
         ("min_distance_km", DVal.n min_distance),
         ("threshold_km", DVal.n 1000)], 0⟩

/-- `_check_device_fingerprint`. `known` models `_get_user_known_devices`
for the transaction's user and `isBl` models `_is_device_blacklisted`
(called twice in the source, as here). -/
def checkDeviceFingerprint (known : Except String (List String))
    (isBl : String → Except String Bool) (tx : Transaction) (cfg : RuleConfig) :
    Except String FraudRuleResult :=
  match known with
  | .error e => .error e
  | .ok known_devices =>
    let fp := tx.device_fingerprint.fingerprint
    if known_devices.contains fp then
      .ok ⟨cfg.name, false, 0,
        [("device_fingerprint", DVal.s fp),
         ("is_known_device", DVal.b true),
         ("known_devices_count", DVal.n (known_devices.length : ℚ))], 0⟩
    else
      match isBl fp with
      | .error e => .error e
      | .ok bl =>
        let score : ℚ := if bl then 1 else 0.5
        match isBl fp with
        | .error e => .error e
        | .ok bl2 =>
          .ok ⟨cfg.name, true, score * cfg.weight,
            [("device_fingerprint", DVal.s fp),
             ("is_known_device", DVal.b false),
             ("known_devices_count", DVal.n (known_devices.length : ℚ)),
             ("is_blacklisted", DVal.b bl2)], 0⟩

/-- `_check_time_pattern`. `typicalHours` models
`_get_user_typical_transaction_hours` (a dict keyed by stringified hour). -/
def checkTimePattern (typicalHours : Except String (List (String × ℚ)))
    (tx : Transaction) (cfg : RuleConfig) : Except String FraudRuleResult :=
  match typicalHours with
  | .error e => .error e
  | .ok th =>
    let current_hour := tx.timestamp.hour
    if th.isEmpty then
      .ok ⟨cfg.name, false, 0, [("status", DVal.s "no_transaction_history")], 0⟩
    else
      let hour_frequency := (th.lookup (toString current_hour)).getD 0
      let total_frequency := (th.map (·.2)).sum
      if total_frequency > 0 then
        let hour_probability := hour_frequency / total_frequency
        let acc : Bool × ℚ := if hour_probability < 0.05 then (true, 0.4) else (false, 0)
        .ok ⟨cfg.name, acc.1, acc.2 * cfg.weight,
          [("current_hour", DVal.n (current_hour : ℚ)),
           ("hour_frequency", DVal.n hour_frequency),
           ("total_frequency", DVal.n total_frequency),
           ("hour_probability", DVal.n hour_probability),
           ("threshold", DVal.n 0.05)], 0⟩
      else .ok ⟨cfg.name, false, 0, [], 0⟩

/-- Modelled from the spec: the historical-aggregator and distance
collaborators consulted by the rule evaluators during one assessment (fixed
user and timestamp), per spec 4.C. The source's `_get_user_known_devices`,
`_is_device_blacklisted`, `_get_user_typical_transaction_hours`,
`_is_new_geolocation` and `_is_new_device` are placeholder stubs
("Implementation would query ..."), so the aggregator answers are oracle
values here; an `.error` value models the underlying call raising that
exception, and `dist` stands for the transcendental haversine
`_calculate_distance`. -/
structure AggEnv where
  countInWindow : Nat → Except String Int
  amountInWindow : Nat → Except String ℚ
  typicalLocations : Except String (List (ℚ × ℚ))
  knownDevices : Except String (List String)
  isBlacklisted : String → Except String Bool
  typicalHours : Except String (List (String × ℚ))
  dist : ℚ → ℚ → ℚ → ℚ → ℚ

/-- The `if/elif` evaluator dispatch inside `_execute_fraud_rules`; `none`
models the `else: continue` branch for an unknown rule key. -/
def evalRule (env : AggEnv) (tx : Transaction) (profile : UserRiskProfile)
    (key : String) (cfg : RuleConfig) : Option (Except String FraudRuleResult) :=
  if key = "velocity_check" then
    some (checkVelocityRules env.countInWindow env.amountInWindow cfg)
  else if key = "amount_anomaly" then
    some (.ok (checkAmountAnomaly tx profile cfg))
  else if key = "geolocation_anomaly" then
    some (checkGeolocationAnomaly env.typicalLocations env.dist tx cfg)
  else if key = "device_fingerprint" then
    some (checkDeviceFingerprint env.knownDevices env.isBlacklisted tx cfg)
  else if key = "time_pattern" then
    some (checkTimePattern env.typicalHours tx cfg)
  else none

/-- The `except` clause of `_execute_fraud_rules`: an evaluator exception
becomes a non-triggered result named by the catalog key with score 0 and
an `error` detail. -/
def ruleOutcome (key : String) (r : Except String FraudRuleResult) : FraudRuleResult :=
  match r with
  | .ok res => res
  | .error e => ⟨key, false, 0, [("error", DVal.s e)], 0⟩

/-- `_execute_fraud_rules`: evaluate the enabled catalog rules in
registration order, converting per-rule exceptions into error results. -/
def executeFraudRules (env : AggEnv) (tx : Transaction) (profile : UserRiskProfile) :
    List FraudRuleResult :=
  fraud_rules.filterMap (fun p =>
    if p.2.enabled then (evalRule env tx profile p.1 p.2).map (ruleOutcome p.1) else none)

/-- `_create_default_user_profile`: the synthesized profile for a user absent
from the `users` table. The source constructs `Money(amount=0, ...)` twice,
and each construction passes through pydantic validation (`mkMoney`). -/
def createDefaultUserProfile (user_id : String) : Except String UserRiskProfile :=
  match mkMoney 0 "USD" 2 with
  | .error e => .error e
  | .ok total_amount =>
    match mkMoney 0 "USD" 2 with
    | .error e => .error e
    | .ok average_transaction_amount =>
      .ok ⟨user_id, 0.7, 0.0, 0.8, "NONE", 0.0, 0.0, ⟨0⟩, 0,
           total_amount, average_transaction_amount, 0, 0, RiskLevel.MEDIUM⟩

/-- Pydantic validation of the constrained `FraudAssessment` fields set by
`assess_transaction`: `score`, optional `ml_score` and `confidence` must lie
in [0,1]. -/
def assessmentValid (score : ℚ) (ml_score : Option ℚ) (confidence : ℚ) : Bool :=
  decide (0 ≤ score) && decide (score ≤ 1)
    && (match ml_score with
        | some m => decide (0 ≤ m) && decide (m ≤ 1)
        | none => true)
    && decide (0 ≤ confidence) && decide (confidence ≤ 1)

/-- The message of the pydantic `ValidationError` raised when a constrained
`FraudAssessment` field is out of range (modelled as a single string). -/
def assessmentValidationMsg : String := "validation error for FraudAssessment"

/-- Collaborator outcomes of one `assess_transaction` call beyond the rule
evaluators: profile lookup, ML scoring, persistence, profile-cache
invalidation and alert emission. `.error` models the step raising. -/
structure PipelineEnv where
  agg : AggEnv
  profile : Except String UserRiskProfile
  mlScore : Except String (Option ℚ)
  storeResult : Except String Unit
  invalidateResult : Except String Unit
  alertResult : Except String Unit

/-- Result of one `assess_transaction` call: the returned response plus
whether a `fraud_assessments` row was inserted (`_store_assessment`
completed). -/
structure AssessOutcome where
  response : FraudDetectionResponse
  persisted : Bool

/-- `assess_transaction`: input validation, profile lookup, rule execution,
ML scoring, fusion, level/action resolution, assessment construction
(with pydantic field validation), persistence, cache invalidation and alert
emission for HIGH/CRITICAL levels, with the enclosing `try/except` returning
a failure response carrying the exception message. `now` models
`time.time()` in seconds and `uuid` the generated assessment id. -/
def assessTransaction (env : PipelineEnv) (now : Nat) (uuid : String)
    (request : FraudDetectionRequest) : AssessOutcome :=
  let correlation_id := "fraud_" ++ toString now
  match request.transaction with
  | none => ⟨⟨false, none, some "No transaction provided", 0, correlation_id⟩, false⟩
  | some tx =>
    match env.profile with
    | .error e => ⟨⟨false, none, some e, 0, correlation_id⟩, false⟩
    | .ok user_profile =>
      let rule_results := executeFraudRules env.agg tx user_profile
      match env.mlScore with
      | .error e => ⟨⟨false, none, some e, 0, correlation_id⟩, false⟩
      | .ok ml_score =>
        let final_score := calculateFinalScore rule_results ml_score
        let risk_level := determineRiskLevel final_score
        let action := determineAction final_score risk_level rule_results
        let confidence := calculateConfidence rule_results ml_score
        if assessmentValid final_score ml_score confidence = true then
          let assessment : FraudAssessment :=
            ⟨uuid, tx.user_id, some tx.id, final_score, risk_level, rule_results,
             ml_score, action,
             generateAssessmentReason rule_results ml_score final_score,
             confidence, 0, decide (action = FraudAction.MANUAL_REVIEW)⟩
          match env.storeResult with
          | .error e => ⟨⟨false, none, some e, 0, correlation_id⟩, false⟩
          | .ok _ =>
            match env.invalidateResult with
            | .error e => ⟨⟨false, none, some e, 0, correlation_id⟩, true⟩
            | .ok _ =>
              if risk_level = RiskLevel.HIGH ∨ risk_level = RiskLevel.CRITICAL then
                match env.alertResult with
                | .error e => ⟨⟨false, none, some e, 0, correlation_id⟩, true⟩
                | .ok _ => ⟨⟨true, some assessment, none, 0, correlation_id⟩, true⟩
              else ⟨⟨true, some assessment, none, 0, correlation_id⟩, true⟩
        else ⟨⟨false, none, some assessmentValidationMsg, 0, correlation_id⟩, false⟩

/-- Details of a rule evaluation outcome (empty for a raised exception);
used to state facts about a single evaluator call. -/
def exceptDetails (e : Except String FraudRuleResult) : List (String × DVal) :=
  match e with
  | .ok r => r.details
  | .error _ => []

/-- Concrete device fingerprint used by witnesses. -/
def fp0 : DeviceFingerprint := ⟨"fp-1", "agent", "10.0.0.1"⟩

/-- Concrete geolocation used by witnesses. -/
def geo0 : GeoLocation := ⟨40, -74, "US", none, none⟩

/-- Concrete small payment used by witnesses. -/
def tx0 : Transaction :=
  ⟨"tx-1", "user-1", TransactionType.PAYMENT, ⟨10, "USD", 2⟩, ⟨0⟩, fp0, geo0, none⟩

/-- Concrete large payment (amount 2000) used by witnesses. -/
def tx8 : Transaction :=
  ⟨"tx-2", "user-1", TransactionType.PAYMENT, ⟨2000, "USD", 2⟩, ⟨0⟩, fp0, geo0, none⟩

/-- Concrete established-user profile (5 transactions, average amount 20)
used by witnesses. -/
def profile0 : UserRiskProfile :=
  ⟨"user-1", 0.5, 0.3, 0.2, "BASIC", 0, 0, ⟨0⟩, 5,
   ⟨100, "USD", 2⟩, ⟨20, "USD", 2⟩, 100, 0, RiskLevel.LOW⟩

/-- Benign aggregator: no history, the transaction's device is known, nothing
blacklisted, all queries succeed. -/
def aggOk : AggEnv :=
  ⟨fun _ => .ok 0, fun _ => .ok 0, .ok [], .ok ["fp-1"],
   fun _ => .ok false, .ok [], fun _ _ _ _ => 0⟩

/-- Aggregator whose transaction-count query raises, so the velocity
evaluator fails; all other queries succeed. -/
def aggVelErr : AggEnv :=
  ⟨fun _ => .error "database connection lost", fun _ => .ok 0, .ok [], .ok ["fp-1"],
   fun _ => .ok false, .ok [], fun _ _ _ _ => 0⟩

/-- Concrete request carrying `tx0`. -/
def req0 : FraudDetectionRequest := ⟨"user-1", some tx0, false⟩

/-- Pipeline environment where every collaborator succeeds. -/
def envOk : PipelineEnv := ⟨aggOk, .ok profile0, .ok none, .ok (), .ok (), .ok ()⟩

/-- Pipeline environment where only the profile-cache invalidation (the step
after persistence) raises. -/
def envInvalidateErr : PipelineEnv :=
  ⟨aggOk, .ok profile0, .ok none, .ok (), .error "cache invalidation failed", .ok ()⟩

/-- Pipeline environment where the velocity rule's aggregator query raises
and every other collaborator succeeds. -/
def envVelErr : PipelineEnv := ⟨aggVelErr, .ok profile0, .ok none, .ok (), .ok (), .ok ()⟩

/-- Triggered rule result with weighted score 1, for confidence facts. -/
def r61 : FraudRuleResult := ⟨"r1", true, 1, [], 0⟩

/-- Second triggered rule result with weighted score 1. -/
def r62 : FraudRuleResult := ⟨"r2", true, 1, [], 0⟩

/-- Blacklist oracle that blacklists nothing. -/
def bl0 : String → Bool := fun _ => false

/-- C1: `_calculate_final_score` returns the clip to [0,1] of
`0.6 * (sum of rule result scores) + 0.4 * ml_score` when the ML score is
defined, and the clip to [0,1] of the rule score sum alone otherwise. -/
theorem C1_score_fusion :
    (∀ (rs : List FraudRuleResult) (m : ℚ),
      calculateFinalScore rs (some m) = clip01 (0.6 * ruleScoreSum rs + 0.4 * m))
    ∧ (∀ rs : List FraudRuleResult,
      calculateFinalScore rs none = clip01 (ruleScoreSum rs)) := by
  constructor
  · intro rs m
    simp only [calculateFinalScore]
    congr 1
    ring
  · intro rs
    rfl

/-- C4: `_determine_risk_level` maps a final score in [0,1] to the unique
band containing it: LOW iff `s < 0.3`, MEDIUM iff `0.3 ≤ s < 0.6`, HIGH iff
`0.6 ≤ s < 0.8`, CRITICAL iff `s ≥ 0.8`. -/
theorem C4_risk_level_bands (s : ℚ) (hs0 : 0 ≤ s) (hs1 : s ≤ 1) :
    (determineRiskLevel s = .LOW ↔ s < 0.3)
    ∧ (determineRiskLevel s = .MEDIUM ↔ 0.3 ≤ s ∧ s < 0.6)
    ∧ (determineRiskLevel s = .HIGH ↔ 0.6 ≤ s ∧ s < 0.8)
    ∧ (determineRiskLevel s = .CRITICAL ↔ 0.8 ≤ s) := by
  unfold determineRiskLevel
  split_ifs with ha hb hc <;>
    refine ⟨?_, ?_, ?_, ?_⟩ <;>
      constructor <;> intro h <;>
        first
          | rfl
          | linarith
          | (exact absurd h (by decide))
          | (exfalso; linarith)
          | (exfalso; obtain ⟨hx, hy⟩ := h; linarith)
          | (exact ⟨by linarith, by linarith⟩)

/-- C4 witness: the theorem applied at the concrete score 0.7, which lies in
the HIGH band. -/
theorem C4_risk_level_bands_witness :
    (0:ℚ) ≤ 0.7 ∧ (0.7:ℚ) ≤ 1 ∧ determineRiskLevel 0.7 = .HIGH :=
  ⟨by norm_num, by norm_num,
   ((C4_risk_level_bands 0.7 (by norm_num) (by norm_num)).2.2.1).mpr (by norm_num)⟩


/-- C2: the profile lookup for a user absent from the `users` table never
returns the synthesized default profile: `_create_default_user_profile`
constructs `Money(amount=0)`, which violates the `Money.amount` gt=0 field
constraint declared in `fraud_models.py`, so the lookup raises a pydantic
validation error for every such user id. -/
theorem C2_default_profile_money_bug (uid : String) :
    createDefaultUserProfile uid = .error moneyValidationMsg := by
  rfl

/-- The `any(...)` generator in `_determine_action`, as an existential. -/
theorem any_high_iff (rs : List FraudRuleResult) :
    rs.any (fun r => r.triggered && decide (r.score > 0.5)) = true
      ↔ ∃ r ∈ rs, r.triggered = true ∧ r.score > 0.5 := by
  simp [List.any_eq_true]

/-- Every assessment carried by a response was built in the success path:
its action is `_determine_action` of the fused score and rule results, and
its `requires_manual_review` flag is the equality test with MANUAL_REVIEW. -/
theorem assess_some_shape (env : PipelineEnv) (now : Nat) (uuid : String)
    (req : FraudDetectionRequest) (a : FraudAssessment)
    (h : (assessTransaction env now uuid req).response.assessment = some a) :
    ∃ tx profile mls,
      req.transaction = some tx ∧ env.profile = .ok profile ∧ env.mlScore = .ok mls ∧
      a.action = determineAction
        (calculateFinalScore (executeFraudRules env.agg tx profile) mls)
        (determineRiskLevel (calculateFinalScore (executeFraudRules env.agg tx profile) mls))
        (executeFraudRules env.agg tx profile) ∧
      a.requires_manual_review = decide (a.action = FraudAction.MANUAL_REVIEW) := by
  obtain ⟨agg, prof, mls, st, inv, al⟩ := env
  obtain ⟨ruid, rtx, rf⟩ := req
  cases rtx with
  | none => simp [assessTransaction] at h
  | some tx =>
    cases prof with
    | error e => simp [assessTransaction] at h
    | ok profile =>
      cases mls with
      | error e => simp [assessTransaction] at h
      | ok ml =>
        refine ⟨tx, profile, ml, rfl, rfl, rfl, ?_⟩
        simp only [assessTransaction] at h
        by_cases hv : assessmentValid
            (calculateFinalScore (executeFraudRules agg tx profile) ml) ml
            (calculateConfidence (executeFraudRules agg tx profile) ml) = true
        · simp only [hv, if_true] at h
          cases st with
          | error e => simp at h
          | ok u =>
            cases inv with
            | error e => simp at h
            | ok u2 =>
              by_cases hr : determineRiskLevel
                  (calculateFinalScore (executeFraudRules agg tx profile) ml) = RiskLevel.HIGH
                  ∨ determineRiskLevel
                    (calculateFinalScore (executeFraudRules agg tx profile) ml) = RiskLevel.CRITICAL
              · simp only [hr, if_true] at h
                cases al with
                | error e => simp at h
                | ok u3 =>
                  simp only [Option.some.injEq] at h
                  subst h
                  exact ⟨rfl, rfl⟩
              · simp only [hr, if_false] at h
                simp only [Option.some.injEq] at h
                subst h
                exact ⟨rfl, rfl⟩
        · simp only [hv, if_false] at h
          simp at h

/-- C3: `_determine_action` resolves REJECT iff the final score is at least
0.8, HOLD iff it lies in [0.6, 0.8), for scores in [0.3, 0.6) MANUAL_REVIEW
iff some rule result is triggered with weighted score above 0.5 and APPROVE
otherwise, and APPROVE below 0.3; and every produced assessment has
`requires_manual_review` true exactly when its action is MANUAL_REVIEW. -/
theorem C3_action_resolution :
    (∀ (s : ℚ) (lvl : RiskLevel) (rs : List FraudRuleResult),
      determineAction s lvl rs = .REJECT ↔ 0.8 ≤ s)
    ∧ (∀ (s : ℚ) (lvl : RiskLevel) (rs : List FraudRuleResult),
      determineAction s lvl rs = .HOLD ↔ 0.6 ≤ s ∧ s < 0.8)
    ∧ (∀ (s : ℚ) (lvl : RiskLevel) (rs : List FraudRuleResult), 0.3 ≤ s → s < 0.6 →
      ((determineAction s lvl rs = .MANUAL_REVIEW
          ↔ ∃ r ∈ rs, r.triggered = true ∧ r.score > 0.5)
        ∧ ((¬ ∃ r ∈ rs, r.triggered = true ∧ r.score > 0.5) →
            determineAction s lvl rs = .APPROVE)))
    ∧ (∀ (s : ℚ) (lvl : RiskLevel) (rs : List FraudRuleResult),
      s < 0.3 → determineAction s lvl rs = .APPROVE)
    ∧ (∀ (env : PipelineEnv) (now : Nat) (uuid : String)
        (req : FraudDetectionRequest) (a : FraudAssessment),
      (assessTransaction env now uuid req).response.assessment = some a →
      (a.requires_manual_review = true ↔ a.action = FraudAction.MANUAL_REVIEW)) := by
  refine ⟨?_, ?_, ?_, ?_, ?_⟩
  · intro s lvl rs
    unfold determineAction
    split_ifs with ha hb hc <;>
      constructor <;> intro h <;>
        first
          | rfl
          | linarith
          | (exact absurd h (by decide))
          | (exfalso; linarith)
  · intro s lvl rs
    unfold determineAction
    split_ifs with ha hb hc <;>
      constructor <;> intro h <;>
        first
          | rfl
          | linarith
          | (exact absurd h (by decide))
          | (exfalso; linarith)
          | (exfalso; obtain ⟨hx, hy⟩ := h; linarith)
          | (exact ⟨by linarith, by linarith⟩)
  · intro s lvl rs h3 h6
    unfold determineAction
    split_ifs with ha hb hc
    · exfalso; linarith
    · exfalso; linarith
    · constructor
      · constructor
        · intro _; exact (any_high_iff rs).mp hc
        · intro _; rfl
      · intro hno; exact absurd ((any_high_iff rs).mp hc) hno
    · constructor
      · constructor
        · intro h; exact absurd h (by decide)
        · intro hex; exact absurd ((any_high_iff rs).mpr hex) hc
      · intro _; rfl
  · intro s lvl rs h
    unfold determineAction
    split_ifs with ha hb hc <;> first | rfl | (exfalso; linarith)
  · intro env now uuid req a h
    obtain ⟨_, _, _, _, _, _, _, hreq⟩ := assess_some_shape env now uuid req a h
    rw [hreq]
    simp

/-- C3 witness: the theorem applied at score 0.5 with a single triggered
rule of weighted score 0.6, resolving MANUAL_REVIEW. -/
theorem C3_action_resolution_witness :
    determineAction 0.5 RiskLevel.MEDIUM [⟨"r", true, 0.6, [], 0⟩] = .MANUAL_REVIEW :=
  ((C3_action_resolution.2.2.1 0.5 RiskLevel.MEDIUM [⟨"r", true, 0.6, [], 0⟩]
    (by norm_num) (by norm_num)).1).mpr
    ⟨⟨"r", true, 0.6, [], 0⟩, by simp, rfl, by norm_num⟩

/-- C6 counterexample: with no rule results and no ML score the code returns
0.0 (the claim says indicators are empty so 0.5), and with two triggered
rules of weighted score 1 plus ML score 0 the code returns −1 (the claim
says the two-indicator value is clipped to [0,1]). -/
theorem C6_confidence_counterexample :
    calculateConfidence [] none = 0
    ∧ calculateConfidence [r61, r62] (some 0) = -1 := by
  constructor
  · rfl
  · norm_num [calculateConfidence, triggeredScoreSum, r61, r62, max_def, min_def]

/-- C6 amended: `_calculate_confidence` returns 0.0 when both the rule-result
list is empty and the ML score undefined; otherwise, from indicators
[triggered-rule score sum if positive] ++ [ml score if defined]: 0.5 when
empty, the single element when one, and mean times (1 − (max − min)) with no
clipping when two. -/
theorem C6_confidence_amended (rs : List FraudRuleResult) (ml : Option ℚ) :
    (rs = [] → ml = none → calculateConfidence rs ml = 0)
    ∧ (rs ≠ [] → ml = none → triggeredScoreSum rs ≤ 0 →
        calculateConfidence rs ml = 0.5)
    ∧ (ml = none → 0 < triggeredScoreSum rs →
        calculateConfidence rs ml = triggeredScoreSum rs)
    ∧ (∀ m, ml = some m → triggeredScoreSum rs ≤ 0 →
        calculateConfidence rs ml = m)
    ∧ (∀ m, ml = some m → 0 < triggeredScoreSum rs →
        calculateConfidence rs ml =
          ((triggeredScoreSum rs + m) / 2)
            * (1 - (max (triggeredScoreSum rs) m - min (triggeredScoreSum rs) m))) := by
  refine ⟨?_, ?_, ?_, ?_, ?_⟩
  · intro h1 h2; subst h1; subst h2; rfl
  · intro hne hml hle
    subst hml
    cases rs with
    | nil => exact absurd rfl hne
    | cons a l =>
      simp only [calculateConfidence, List.isEmpty_cons, Option.isNone_none,
        Bool.false_and, Bool.false_eq_true, if_false, not_lt.mpr hle, if_neg,
        List.nil_append]
  · intro hml hlt
    subst hml
    cases rs with
    | nil => simp [triggeredScoreSum] at hlt
    | cons a l =>
      simp [calculateConfidence, hlt]
  · intro m hml hle
    subst hml
    simp [calculateConfidence, not_lt.mpr hle]
  · intro m hml hlt
    subst hml
    simp [calculateConfidence, hlt]

/-- C6 amended witness: the theorem applied to one triggered rule of
weighted score 1 and ML score 0.5 (the two-indicator case). -/
theorem C6_confidence_amended_witness :
    calculateConfidence [r61] (some 0.5) =
      ((triggeredScoreSum [r61] + 0.5) / 2)
        * (1 - (max (triggeredScoreSum [r61]) 0.5 - min (triggeredScoreSum [r61]) 0.5)) :=
  (C6_confidence_amended [r61] (some 0.5)).2.2.2.2 0.5 rfl
    (by norm_num [triggeredScoreSum, r61])

/-- C7 counterexample: for a transaction from a device already known to the
user, the DEVICE_FINGERPRINT result's details carry no `is_blacklisted`
entry, contradicting the claim that every case reports the blacklisted
flag. -/
theorem C7_device_details_counterexample :
    (exceptDetails (checkDeviceFingerprint (.ok ["fp-1"]) (fun _ => .ok false)
        tx0 deviceCfg)).lookup "is_blacklisted" = none
    ∧ (exceptDetails (checkDeviceFingerprint (.ok ["fp-1"]) (fun _ => .ok false)
        tx0 deviceCfg)).lookup "is_known_device" = some (DVal.b true) := by
  constructor <;> rfl

/-- C7 amended: `_check_device_fingerprint` triggers with raw score 0.5
(weighted by 0.15), or 1.0 if the fingerprint is blacklisted, when the
fingerprint is unknown, and does not trigger when known; details report the
fingerprint, known flag and known-device count in every case, but the
blacklisted flag only in the unknown-device cases. -/
theorem C7_device_fingerprint_amended (kd : List String) (bl : String → Bool)
    (tx : Transaction) :
    (kd.contains tx.device_fingerprint.fingerprint = false →
      checkDeviceFingerprint (.ok kd) (fun f => .ok (bl f)) tx deviceCfg =
        .ok ⟨"DEVICE_FINGERPRINT", true,
          (if bl tx.device_fingerprint.fingerprint then 1 else 0.5) * 0.15,
          [("device_fingerprint", DVal.s tx.device_fingerprint.fingerprint),
           ("is_known_device", DVal.b false),
           ("known_devices_count", DVal.n (kd.length : ℚ)),
           ("is_blacklisted", DVal.b (bl tx.device_fingerprint.fingerprint))], 0⟩)
    ∧ (kd.contains tx.device_fingerprint.fingerprint = true →
      checkDeviceFingerprint (.ok kd) (fun f => .ok (bl f)) tx deviceCfg =
        .ok ⟨"DEVICE_FINGERPRINT", false, 0,
          [("device_fingerprint", DVal.s tx.device_fingerprint.fingerprint),
           ("is_known_device", DVal.b true),
           ("known_devices_count", DVal.n (kd.length : ℚ))], 0⟩) := by
  constructor <;> intro h
  · have h2 : tx.device_fingerprint.fingerprint ∉ kd := by simpa using h
    simp [checkDeviceFingerprint, h2, deviceCfg]
  · have h2 : tx.device_fingerprint.fingerprint ∈ kd := by simpa using h
    simp [checkDeviceFingerprint, h2, deviceCfg]

/-- C7 amended witness: the theorem applied to an unknown, non-blacklisted
device (triggering with weighted score 0.5 · 0.15 = 0.075). -/
theorem C7_device_fingerprint_amended_witness :
    checkDeviceFingerprint (.ok []) (fun f => .ok (bl0 f)) tx0 deviceCfg =
      .ok ⟨"DEVICE_FINGERPRINT", true,
        (if bl0 tx0.device_fingerprint.fingerprint then 1 else 0.5) * 0.15,
        [("device_fingerprint", DVal.s tx0.device_fingerprint.fingerprint),
         ("is_known_device", DVal.b false),
         ("known_devices_count", DVal.n ((0 : Nat) : ℚ)),
         ("is_blacklisted", DVal.b (bl0 tx0.device_fingerprint.fingerprint))], 0⟩ :=
  (C7_device_fingerprint_amended [] bl0 tx0).1 rfl

/-- C8: for a profile with positive transaction count and positive average
amount, the AMOUNT_ANOMALY rule triggers iff the normalized deviation
`d = |current − avg| / avg` exceeds 3, its weighted score is
`0.25 · min(0.8, d/5)` when triggered and 0 otherwise, and its details
report the current amount, the average, `d` (under the source's key
`z_score`) and the threshold 3. -/
theorem C8_amount_anomaly_rule (tx : Transaction) (profile : UserRiskProfile)
    (h1 : 0 < profile.total_transactions)
    (h2 : 0 < profile.average_transaction_amount.amount) :
    ((checkAmountAnomaly tx profile amountCfg).triggered = true ↔
      3 < |tx.amount.amount - profile.average_transaction_amount.amount|
            / profile.average_transaction_amount.amount)
    ∧ (checkAmountAnomaly tx profile amountCfg).score =
        (if 3 < |tx.amount.amount - profile.average_transaction_amount.amount|
                  / profile.average_transaction_amount.amount
         then 0.25 * min 0.8 ((|tx.amount.amount - profile.average_transaction_amount.amount|
                  / profile.average_transaction_amount.amount) / 5)
         else 0)
    ∧ (checkAmountAnomaly tx profile amountCfg).details =
        [("current_amount", DVal.n tx.amount.amount),
         ("average_amount", DVal.n profile.average_transaction_amount.amount),
         ("z_score", DVal.n (|tx.amount.amount - profile.average_transaction_amount.amount|
            / profile.average_transaction_amount.amount)),
         ("threshold", DVal.n 3.0)] := by
  by_cases hd : 3 < |tx.amount.amount - profile.average_transaction_amount.amount|
      / profile.average_transaction_amount.amount
  · refine ⟨?_, ?_, ?_⟩ <;>
      simp [checkAmountAnomaly, h1, h2, hd, amountCfg, mul_comm]
  · refine ⟨?_, ?_, ?_⟩ <;>
      simp [checkAmountAnomaly, h1, h2, hd, amountCfg]

/-- C8 witness: the theorem applied to a 2000 USD payment against a profile
averaging 20 USD (deviation 99), triggering with weighted score 0.2. -/
theorem C8_amount_anomaly_rule_witness :
    (checkAmountAnomaly tx8 profile0 amountCfg).triggered = true
    ∧ (checkAmountAnomaly tx8 profile0 amountCfg).score = 0.2 := by
  have h := C8_amount_anomaly_rule tx8 profile0 (by decide) (by decide)
  refine ⟨h.1.mpr (by norm_num [tx8, profile0]), h.2.1.trans ?_⟩
  norm_num [tx8, profile0]

/-- Auxiliary max algebra for the velocity score accumulator. -/
theorem max_nine_mono (s a : ℚ) (ha : a ≤ 0.9) : max (max s a) 0.9 ≤ max s 0.9 := by
  apply max_le
  · exact max_le (le_max_left s 0.9) (ha.trans (le_max_right s 0.9))
  · exact le_max_right s 0.9

/-- The velocity accumulator only grows, and never beyond `max s 0.9`. -/
theorem velocityLoop_score_bounds (count : Nat → Except String Int)
    (amount : Nat → Except String ℚ) :
    ∀ (checks : List (String × VelocityCheck)) (trig : Bool) (s : ℚ)
      (d : List (String × DVal)) (out : Bool × ℚ × List (String × DVal)),
      velocityLoop count amount checks trig s d = .ok out →
      s ≤ out.2.1 ∧ out.2.1 ≤ max s 0.9 := by
  intro checks
  induction checks with
  | nil =>
    intro trig s d out h
    simp only [velocityLoop, Except.ok.injEq] at h
    subst h
    exact ⟨le_refl s, le_max_left s 0.9⟩
  | cons p tl ih =>
    intro trig s d out h
    obtain ⟨period, vc⟩ := p
    simp only [velocityLoop] at h
    cases hc : count vc.window_minutes with
    | error e => simp only [hc] at h; exact Except.noConfusion h
    | ok c =>
      simp only [hc] at h
      by_cases hcc : c > vc.max_transactions
      · simp only [hcc, if_true] at h
        cases hma : vc.max_amount with
        | none =>
          simp only [hma] at h
          obtain ⟨i1, i2⟩ := ih true (max s 0.8) _ out h
          exact ⟨(le_max_left s 0.8).trans i1,
            i2.trans (max_nine_mono s 0.8 (by norm_num))⟩
        | some ma =>
          simp only [hma] at h
          cases ham : amount vc.window_minutes with
          | error e => simp only [ham] at h; exact Except.noConfusion h
          | ok total =>
            simp only [ham] at h
            by_cases ht : total > ma.amount
            · simp only [ht, if_true] at h
              obtain ⟨i1, i2⟩ := ih true (max (max s 0.8) 0.9) _ out h
              refine ⟨?_, ?_⟩
              · exact ((le_max_left s 0.8).trans (le_max_left _ _)).trans i1
              · exact i2.trans ((max_nine_mono (max s 0.8) 0.9 (le_refl _)).trans
                  (max_nine_mono s 0.8 (by norm_num)))
            · simp only [ht, if_false] at h
              obtain ⟨i1, i2⟩ := ih true (max s 0.8) _ out h
              exact ⟨(le_max_left s 0.8).trans i1,
                i2.trans (max_nine_mono s 0.8 (by norm_num))⟩
      · simp only [hcc, if_false] at h
        cases hma : vc.max_amount with
        | none =>
          simp only [hma] at h
          exact ih trig s d out h
        | some ma =>
          simp only [hma] at h
          cases ham : amount vc.window_minutes with
          | error e => simp only [ham] at h; exact Except.noConfusion h
          | ok total =>
            simp only [ham] at h
            by_cases ht : total > ma.amount
            · simp only [ht, if_true] at h
              obtain ⟨i1, i2⟩ := ih true (max s 0.9) _ out h
              exact ⟨(le_max_left s 0.9).trans i1,
                i2.trans (max_nine_mono s 0.9 (le_refl _))⟩
            · simp only [ht, if_false] at h
              exact ih trig s d out h

/-- The velocity rule's weighted score lies in [0, 0.27]. -/
theorem checkVelocityRules_score_bounds (count : Nat → Except String Int)
    (amount : Nat → Except String ℚ) (r : FraudRuleResult)
    (h : checkVelocityRules count amount velocityCfg = .ok r) :
    0 ≤ r.score ∧ r.score ≤ 27/100 := by
  unfold checkVelocityRules at h
  cases hv : velocityLoop count amount velocity_checks false 0 [] with
  | error e => simp only [hv] at h; exact Except.noConfusion h
  | ok out =>
    simp only [hv] at h
    obtain ⟨trig, score, dd⟩ := out
    simp only [Except.ok.injEq] at h
    subst h
    obtain ⟨i1, i2⟩ := velocityLoop_score_bounds count amount velocity_checks false 0 [] _ hv
    simp only at i1 i2
    have h9 : score ≤ 0.9 := by
      have : max (0:ℚ) 0.9 = 0.9 := by norm_num
      simpa [this] using i2
    simp only [velocityCfg]
    constructor
    · exact mul_nonneg i1 (by norm_num)
    · nlinarith

/-- The amount-anomaly rule's weighted score lies in [0, 0.2]. -/
theorem checkAmountAnomaly_score_bounds (tx : Transaction) (profile : UserRiskProfile) :
    0 ≤ (checkAmountAnomaly tx profile amountCfg).score
    ∧ (checkAmountAnomaly tx profile amountCfg).score ≤ 1/5 := by
  by_cases h1 : profile.total_transactions > 0
  · by_cases h2 : profile.average_transaction_amount.amount > 0
    · by_cases hd : |tx.amount.amount - profile.average_transaction_amount.amount|
          / profile.average_transaction_amount.amount > 3
      · have hz : (0:ℚ) ≤ |tx.amount.amount - profile.average_transaction_amount.amount|
            / profile.average_transaction_amount.amount / 5 :=
          div_nonneg (div_nonneg (abs_nonneg _) h2.le) (by norm_num)
        have hm0 : (0:ℚ) ≤ min 0.8 (|tx.amount.amount - profile.average_transaction_amount.amount|
            / profile.average_transaction_amount.amount / 5) := le_min (by norm_num) hz
        have hm1 : min 0.8 (|tx.amount.amount - profile.average_transaction_amount.amount|
            / profile.average_transaction_amount.amount / 5) ≤ 0.8 := min_le_left _ _
        simp only [checkAmountAnomaly, h1, if_true, h2, hd, amountCfg]
        constructor
        · exact mul_nonneg hm0 (by norm_num)
        · nlinarith
      · simp [checkAmountAnomaly, h1, h2, hd]
    · simp [checkAmountAnomaly, h1, h2]
  · simp [checkAmountAnomaly, h1]

/-- The geolocation rule's weighted score lies in [0, 0.14]. -/
theorem checkGeolocationAnomaly_score_bounds (typ : Except String (List (ℚ × ℚ)))
    (dist : ℚ → ℚ → ℚ → ℚ → ℚ) (tx : Transaction) (r : FraudRuleResult)
    (h : checkGeolocationAnomaly typ dist tx geoCfg = .ok r) :
    0 ≤ r.score ∧ r.score ≤ 7/50 := by
  unfold checkGeolocationAnomaly at h
  cases typ with
  | error e => exact Except.noConfusion h
  | ok locs =>
    cases locs with
    | nil =>
      simp only [Except.ok.injEq] at h
      subst h
      norm_num
    | cons l ls =>
      simp only at h
      generalize hM : List.foldl (fun acc loc =>
          min acc (dist tx.geolocation.latitude tx.geolocation.longitude loc.1 loc.2))
          (dist tx.geolocation.latitude tx.geolocation.longitude l.1 l.2) ls = M at h
      split_ifs at h with hm
      · simp only [Except.ok.injEq] at h
        subst h
        simp only [geoCfg]
        have h0 : (0:ℚ) ≤ M / 5000 := div_nonneg (by linarith) (by norm_num)
        have hmin0 : (0:ℚ) ≤ min 0.7 (M / 5000) := le_min (by norm_num) h0
        have hmin1 : min 0.7 (M / 5000) ≤ 0.7 := min_le_left _ _
        constructor
        · exact mul_nonneg hmin0 (by norm_num)
        · nlinarith
      · simp only [Except.ok.injEq] at h
        subst h
        norm_num

/-- The device-fingerprint rule's weighted score lies in [0, 0.15]. -/
theorem checkDeviceFingerprint_score_bounds (known : Except String (List String))
    (isBl : String → Except String Bool) (tx : Transaction) (r : FraudRuleResult)
    (h : checkDeviceFingerprint known isBl tx deviceCfg = .ok r) :
    0 ≤ r.score ∧ r.score ≤ 3/20 := by
  unfold checkDeviceFingerprint at h
  cases known with
  | error e => exact Except.noConfusion h
  | ok kd =>
    simp only at h
    split_ifs at h with hk
    · simp only [Except.ok.injEq] at h
      subst h
      norm_num
    · cases hb : isBl tx.device_fingerprint.fingerprint with
      | error e => simp only [hb] at h; exact Except.noConfusion h
      | ok bl =>
        simp only [hb, Except.ok.injEq] at h
        subst h
        simp only [deviceCfg]
        cases bl <;> norm_num

/-- The time-pattern rule's weighted score lies in [0, 0.04]. -/
theorem checkTimePattern_score_bounds (th : Except String (List (String × ℚ)))
    (tx : Transaction) (r : FraudRuleResult)
    (h : checkTimePattern th tx timeCfg = .ok r) :
    0 ≤ r.score ∧ r.score ≤ 1/25 := by
  unfold checkTimePattern at h
  cases th with
  | error e => exact Except.noConfusion h
  | ok hours =>
    simp only at h
    split_ifs at h with he htot hp
    · simp only [Except.ok.injEq] at h; subst h; norm_num
    · simp only [Except.ok.injEq] at h; subst h; simp only [timeCfg]; norm_num
    · simp only [Except.ok.injEq] at h; subst h; simp only [timeCfg]; norm_num
    · simp only [Except.ok.injEq] at h; subst h; norm_num

/-- `_execute_fraud_rules` produces exactly the five catalog evaluations in
registration order. -/
theorem executeFraudRules_eq (env : AggEnv) (tx : Transaction) (profile : UserRiskProfile) :
    executeFraudRules env tx profile =
      [ruleOutcome "velocity_check"
         (checkVelocityRules env.countInWindow env.amountInWindow velocityCfg),
       checkAmountAnomaly tx profile amountCfg,
       ruleOutcome "geolocation_anomaly"
         (checkGeolocationAnomaly env.typicalLocations env.dist tx geoCfg),
       ruleOutcome "device_fingerprint"
         (checkDeviceFingerprint env.knownDevices env.isBlacklisted tx deviceCfg),
       ruleOutcome "time_pattern" (checkTimePattern env.typicalHours tx timeCfg)] := by
  simp [executeFraudRules, fraud_rules, evalRule, ruleOutcome,
    velocityCfg, amountCfg, geoCfg, deviceCfg, timeCfg]

/-- Transfer of evaluator score bounds through the error catch of
`_execute_fraud_rules` (an error result has score 0). -/
theorem ruleOutcome_bounds (k : String) (e : Except String FraudRuleResult) (B : ℚ)
    (hB : 0 ≤ B) (hok : ∀ r, e = .ok r → 0 ≤ r.score ∧ r.score ≤ B) :
    0 ≤ (ruleOutcome k e).score ∧ (ruleOutcome k e).score ≤ B := by
  cases e with
  | ok r => exact hok r rfl
  | error er => exact ⟨le_refl 0, hB⟩

/-- Per-entry score bounds of the executed rule list: the five entries carry
scores bounded by 0.27, 0.2, 0.14, 0.15 and 0.04 respectively. -/
theorem executeFraudRules_entry_bounds (env : AggEnv) (tx : Transaction)
    (profile : UserRiskProfile) :
    ∃ v a g d t, executeFraudRules env tx profile = [v, a, g, d, t]
      ∧ (0 ≤ v.score ∧ v.score ≤ 27/100) ∧ (0 ≤ a.score ∧ a.score ≤ 1/5)
      ∧ (0 ≤ g.score ∧ g.score ≤ 7/50) ∧ (0 ≤ d.score ∧ d.score ≤ 3/20)
      ∧ (0 ≤ t.score ∧ t.score ≤ 1/25) := by
  refine ⟨_, _, _, _, _, executeFraudRules_eq env tx profile, ?_, ?_, ?_, ?_, ?_⟩
  · exact ruleOutcome_bounds _ _ _ (by norm_num)
      (fun r hr => checkVelocityRules_score_bounds _ _ r hr)
  · exact checkAmountAnomaly_score_bounds tx profile
  · exact ruleOutcome_bounds _ _ _ (by norm_num)
      (fun r hr => checkGeolocationAnomaly_score_bounds _ _ _ r hr)
  · exact ruleOutcome_bounds _ _ _ (by norm_num)
      (fun r hr => checkDeviceFingerprint_score_bounds _ _ _ r hr)
  · exact ruleOutcome_bounds _ _ _ (by norm_num)
      (fun r hr => checkTimePattern_score_bounds _ _ r hr)

/-- Every executed rule result has weighted score in [0, 0.27]. -/
theorem executeFraudRules_score_le (env : AggEnv) (tx : Transaction)
    (profile : UserRiskProfile) :
    ∀ r ∈ executeFraudRules env tx profile, 0 ≤ r.score ∧ r.score ≤ 27/100 := by
  obtain ⟨v, a, g, d, t, heq, hv, ha, hg, hd, ht⟩ := executeFraudRules_entry_bounds env tx profile
  intro r hr
  rw [heq] at hr
  simp only [List.mem_cons, List.not_mem_nil, or_false] at hr
  rcases hr with rfl | rfl | rfl | rfl | rfl
  · exact hv
  · exact ⟨ha.1, ha.2.trans (by norm_num)⟩
  · exact ⟨hg.1, hg.2.trans (by norm_num)⟩
  · exact ⟨hd.1, hd.2.trans (by norm_num)⟩
  · exact ⟨ht.1, ht.2.trans (by norm_num)⟩

/-- Unfolding of the triggered-score sum over a cons cell. -/
theorem triggeredScoreSum_cons (r : FraudRuleResult) (rs : List FraudRuleResult) :
    triggeredScoreSum (r :: rs) =
      (if r.triggered = true then r.score else 0) + triggeredScoreSum rs := by
  by_cases h : r.triggered = true <;> simp [triggeredScoreSum, List.filter_cons, h]

/-- The triggered-score sum of an executed rule list lies in [0, 0.8]. -/
theorem executeFraudRules_triggeredScoreSum_bounds (env : AggEnv) (tx : Transaction)
    (profile : UserRiskProfile) :
    0 ≤ triggeredScoreSum (executeFraudRules env tx profile)
    ∧ triggeredScoreSum (executeFraudRules env tx profile) ≤ 0.8 := by
  obtain ⟨v, a, g, d, t, heq, hv, ha, hg, hd, ht⟩ := executeFraudRules_entry_bounds env tx profile
  rw [heq]
  rw [triggeredScoreSum_cons, triggeredScoreSum_cons, triggeredScoreSum_cons,
    triggeredScoreSum_cons, triggeredScoreSum_cons]
  have hnil : triggeredScoreSum [] = 0 := rfl
  rw [hnil]
  have bv : 0 ≤ (if v.triggered = true then v.score else 0)
      ∧ (if v.triggered = true then v.score else 0) ≤ 27/100 := by
    split_ifs
    · exact hv
    · exact ⟨le_refl 0, by norm_num⟩
  have ba : 0 ≤ (if a.triggered = true then a.score else 0)
      ∧ (if a.triggered = true then a.score else 0) ≤ 1/5 := by
    split_ifs
    · exact ha
    · exact ⟨le_refl 0, by norm_num⟩
  have bg : 0 ≤ (if g.triggered = true then g.score else 0)
      ∧ (if g.triggered = true then g.score else 0) ≤ 7/50 := by
    split_ifs
    · exact hg
    · exact ⟨le_refl 0, by norm_num⟩
  have bd : 0 ≤ (if d.triggered = true then d.score else 0)
      ∧ (if d.triggered = true then d.score else 0) ≤ 3/20 := by
    split_ifs
    · exact hd
    · exact ⟨le_refl 0, by norm_num⟩
  have bt : 0 ≤ (if t.triggered = true then t.score else 0)
      ∧ (if t.triggered = true then t.score else 0) ≤ 1/25 := by
    split_ifs
    · exact ht
    · exact ⟨le_refl 0, by norm_num⟩
  constructor
  · linarith [bv.1, ba.1, bg.1, bd.1, bt.1]
  · linarith [bv.2, ba.2, bg.2, bd.2, bt.2]

/-- `np.clip(x, 0, 1)` lies in [0,1]. -/
theorem clip01_bounds (x : ℚ) : 0 ≤ clip01 x ∧ clip01 x ≤ 1 := by
  unfold clip01
  constructor
  · exact le_min (le_max_right x 0) (by norm_num)
  · exact min_le_right _ _

/-- The fused final score lies in [0,1]. -/
theorem calculateFinalScore_bounds (rs : List FraudRuleResult) (ml : Option ℚ) :
    0 ≤ calculateFinalScore rs ml ∧ calculateFinalScore rs ml ≤ 1 := by
  cases ml <;> exact clip01_bounds _

/-- Confidence value in the 0.5 fallback case (no positive rule signal and
no ML score, but a non-empty rule list). -/
theorem calculateConfidence_fallback (a : FraudRuleResult) (l : List FraudRuleResult)
    (hle : triggeredScoreSum (a :: l) ≤ 0) :
    calculateConfidence (a :: l) none = 0.5 := by
  simp only [calculateConfidence, List.isEmpty_cons, Option.isNone_none,
    Bool.false_and, Bool.false_eq_true, if_false, not_lt.mpr hle, if_neg,
    List.nil_append]

/-- Confidence value when only the rule signal is present. -/
theorem calculateConfidence_rules_only (rs : List FraudRuleResult)
    (hlt : 0 < triggeredScoreSum rs) :
    calculateConfidence rs none = triggeredScoreSum rs := by
  cases rs with
  | nil => simp [triggeredScoreSum] at hlt
  | cons a l => simp [calculateConfidence, hlt]

/-- Confidence value when only the ML signal is present. -/
theorem calculateConfidence_ml_only (rs : List FraudRuleResult) (m : ℚ)
    (hle : triggeredScoreSum rs ≤ 0) :
    calculateConfidence rs (some m) = m := by
  simp [calculateConfidence, not_lt.mpr hle]

/-- Confidence value in the two-indicator case. -/
theorem calculateConfidence_two (rs : List FraudRuleResult) (m : ℚ)
    (hlt : 0 < triggeredScoreSum rs) :
    calculateConfidence rs (some m) =
      ((triggeredScoreSum rs + m) / 2)
        * (1 - (max (triggeredScoreSum rs) m - min (triggeredScoreSum rs) m)) := by
  simp [calculateConfidence, hlt]

/-- Confidence bounds: with the triggered-score sum in [0, 0.8] and any ML
score in [0,1], the confidence lies in [0,1]. -/
theorem calculateConfidence_bounds (rs : List FraudRuleResult) (ml : Option ℚ)
    (h0 : 0 ≤ triggeredScoreSum rs) (h8 : triggeredScoreSum rs ≤ 0.8)
    (hml : ∀ m, ml = some m → 0 ≤ m ∧ m ≤ 1) :
    0 ≤ calculateConfidence rs ml ∧ calculateConfidence rs ml ≤ 1 := by
  by_cases hrc : 0 < triggeredScoreSum rs
  · cases ml with
    | none =>
      rw [calculateConfidence_rules_only rs hrc]
      exact ⟨h0, h8.trans (by norm_num)⟩
    | some m =>
      have hm := hml m rfl
      rw [calculateConfidence_two rs m hrc]
      have hmax1 : max (triggeredScoreSum rs) m ≤ 1 := max_le (by linarith) hm.2
      have hminmax : min (triggeredScoreSum rs) m ≤ max (triggeredScoreSum rs) m := min_le_max
      have hmin0 : 0 ≤ min (triggeredScoreSum rs) m := le_min h0 hm.1
      have hms : (triggeredScoreSum rs + m) / 2 ≤ 0.9 := by linarith [hm.2]
      have hms0 : (0:ℚ) ≤ (triggeredScoreSum rs + m) / 2 := by linarith [hm.1]
      have hag0 : (0:ℚ) ≤ 1 - (max (triggeredScoreSum rs) m - min (triggeredScoreSum rs) m) := by
        linarith
      have hag1 : 1 - (max (triggeredScoreSum rs) m - min (triggeredScoreSum rs) m) ≤ 1 := by
        linarith
      constructor
      · exact mul_nonneg hms0 hag0
      · have := mul_le_mul hms hag1 hag0 (by norm_num : (0:ℚ) ≤ 0.9)
        linarith
  · have hle : triggeredScoreSum rs ≤ 0 := le_of_not_lt hrc
    cases ml with
    | none =>
      cases rs with
      | nil =>
        have : calculateConfidence [] none = 0 := rfl
        rw [this]
        norm_num
      | cons a l =>
        rw [calculateConfidence_fallback a l hle]
        norm_num
    | some m =>
      rw [calculateConfidence_ml_only rs m hle]
      exact hml m rfl

/-- The pydantic field validation of the assessment built by the pipeline
always passes: the fused score is clipped, the confidence is bounded, and
the ML score is assumed in range (as `_calculate_ml_score` clips it). -/
theorem assessmentValid_of_pipeline (agg : AggEnv) (tx : Transaction)
    (profile : UserRiskProfile) (ml : Option ℚ)
    (hml : ∀ m, ml = some m → 0 ≤ m ∧ m ≤ 1) :
    assessmentValid (calculateFinalScore (executeFraudRules agg tx profile) ml) ml
      (calculateConfidence (executeFraudRules agg tx profile) ml) = true := by
  have hf := calculateFinalScore_bounds (executeFraudRules agg tx profile) ml
  have hts := executeFraudRules_triggeredScoreSum_bounds agg tx profile
  have hc := calculateConfidence_bounds _ ml hts.1 hts.2 hml
  unfold assessmentValid
  cases ml with
  | none => simp [hf.1, hf.2, hc.1, hc.2]
  | some m =>
    have hm := hml m rfl
    simp [hf.1, hf.2, hc.1, hc.2, hm.1, hm.2]

/-- With every rule score at most 0.27, `_determine_action` never resolves
MANUAL_REVIEW. -/
theorem determineAction_ne_manual_review (s : ℚ) (lvl : RiskLevel)
    (rs : List FraudRuleResult) (hb : ∀ r ∈ rs, r.score ≤ 27/100) :
    determineAction s lvl rs ≠ .MANUAL_REVIEW := by
  unfold determineAction
  split_ifs with h1 h2 h3 h4
  · decide
  · decide
  · obtain ⟨r, hr, htrig, hsc⟩ := (any_high_iff rs).mp h4
    have := hb r hr
    exfalso
    linarith
  · decide
  · decide

/-- If the transaction is present and the profile lookup, ML scoring (with an
in-range score), persistence, cache invalidation and alerting all succeed,
`assess_transaction` returns a success response — independently of any
aggregator failures inside the rule evaluators. -/
theorem assess_success_of_components (env : PipelineEnv) (now : Nat) (uuid : String)
    (req : FraudDetectionRequest) (tx : Transaction) (profile : UserRiskProfile)
    (mls : Option ℚ)
    (htx : req.transaction = some tx)
    (hprof : env.profile = .ok profile)
    (hmlv : env.mlScore = .ok mls)
    (hmlb : ∀ m, mls = some m → 0 ≤ m ∧ m ≤ 1)
    (hst : env.storeResult = .ok ())
    (hinv : env.invalidateResult = .ok ())
    (hal : env.alertResult = .ok ()) :
    (assessTransaction env now uuid req).response.success = true := by
  obtain ⟨agg, prof, mlsc, st, inv, al⟩ := env
  obtain ⟨ruid, rtx, rf⟩ := req
  simp only at htx hprof hmlv hst hinv hal
  subst htx hprof hmlv hst hinv hal
  have hval := assessmentValid_of_pipeline agg tx profile mls hmlb
  simp only [assessTransaction, hval, if_true]
  split_ifs <;> rfl

/-- Concrete run: with a benign aggregator and a failing cache invalidation,
`assess_transaction` returns a failure response although the assessment was
persisted. -/
theorem assess_envInvalidateErr_eq :
    assessTransaction envInvalidateErr 0 "a1" req0 =
      ⟨⟨false, none, some "cache invalidation failed", 0, "fraud_" ++ toString 0⟩, true⟩ := by
  have hval := assessmentValid_of_pipeline aggOk tx0 profile0 none
    (fun m hm => Option.noConfusion hm)
  simp only [assessTransaction, envInvalidateErr, req0, hval, if_true]

/-- C5 counterexample: an exception in the profile-cache invalidation step —
which runs after persistence — yields `success = false` with no assessment in
the response, while the assessment remains persisted, contradicting the
claim that no assessment is persisted on any pipeline exception. -/
theorem C5_persisted_failure_counterexample :
    (assessTransaction envInvalidateErr 0 "a1" req0).response.success = false
    ∧ (assessTransaction envInvalidateErr 0 "a1" req0).response.assessment = none
    ∧ (assessTransaction envInvalidateErr 0 "a1" req0).persisted = true := by
  rw [assess_envInvalidateErr_eq]
  exact ⟨rfl, rfl, rfl⟩

/-- C5 amended: any exception after input validation yields `success = false`
with that exception's message as error plus correlation id, and no assessment
in the response; a raise in the profile lookup, ML scoring or persistence
step leaves no assessment persisted, while a raise in cache invalidation or
alert emission — the steps after persistence — leaves the already persisted
assessment persisted. -/
theorem C5_error_handling_amended (env : PipelineEnv) (now : Nat) (uuid : String)
    (req : FraudDetectionRequest) (tx : Transaction)
    (htx : req.transaction = some tx) :
    (∀ e, env.profile = .error e →
      (assessTransaction env now uuid req).response.success = false
      ∧ (assessTransaction env now uuid req).response.assessment = none
      ∧ (assessTransaction env now uuid req).response.error = some e
      ∧ (assessTransaction env now uuid req).response.correlation_id
          = "fraud_" ++ toString now
      ∧ (assessTransaction env now uuid req).persisted = false)
    ∧ (∀ profile e, env.profile = .ok profile → env.mlScore = .error e →
      (assessTransaction env now uuid req).response.success = false
      ∧ (assessTransaction env now uuid req).response.assessment = none
      ∧ (assessTransaction env now uuid req).response.error = some e
      ∧ (assessTransaction env now uuid req).response.correlation_id
          = "fraud_" ++ toString now
      ∧ (assessTransaction env now uuid req).persisted = false)
    ∧ (∀ profile mls e, env.profile = .ok profile → env.mlScore = .ok mls →
      (∀ m, mls = some m → 0 ≤ m ∧ m ≤ 1) → env.storeResult = .error e →
      (assessTransaction env now uuid req).response.success = false
      ∧ (assessTransaction env now uuid req).response.assessment = none
      ∧ (assessTransaction env now uuid req).response.error = some e
      ∧ (assessTransaction env now uuid req).response.correlation_id
          = "fraud_" ++ toString now
      ∧ (assessTransaction env now uuid req).persisted = false)
    ∧ (∀ profile mls e, env.profile = .ok profile → env.mlScore = .ok mls →
      (∀ m, mls = some m → 0 ≤ m ∧ m ≤ 1) → env.storeResult = .ok () →
      env.invalidateResult = .error e →
      (assessTransaction env now uuid req).response.success = false
      ∧ (assessTransaction env now uuid req).response.assessment = none
      ∧ (assessTransaction env now uuid req).response.error = some e
      ∧ (assessTransaction env now uuid req).response.correlation_id
          = "fraud_" ++ toString now
      ∧ (assessTransaction env now uuid req).persisted = true)
    ∧ (∀ profile mls e, env.profile = .ok profile → env.mlScore = .ok mls →
      (∀ m, mls = some m → 0 ≤ m ∧ m ≤ 1) → env.storeResult = .ok () →
      env.invalidateResult = .ok () →
      (determineRiskLevel
          (calculateFinalScore (executeFraudRules env.agg tx profile) mls) = RiskLevel.HIGH
        ∨ determineRiskLevel
          (calculateFinalScore (executeFraudRules env.agg tx profile) mls) = RiskLevel.CRITICAL) →
      env.alertResult = .error e →
      (assessTransaction env now uuid req).response.success = false
      ∧ (assessTransaction env now uuid req).response.assessment = none
      ∧ (assessTransaction env now uuid req).response.error = some e
      ∧ (assessTransaction env now uuid req).response.correlation_id
          = "fraud_" ++ toString now
      ∧ (assessTransaction env now uuid req).persisted = true)
    ∧ (((assessTransaction env now uuid req).response.success = false →
        (assessTransaction env now uuid req).response.assessment = none
        ∧ (assessTransaction env now uuid req).response.error.isSome = true
        ∧ (assessTransaction env now uuid req).response.correlation_id
            = "fraud_" ++ toString now)
      ∧ (∀ e, env.storeResult = .error e →
        (assessTransaction env now uuid req).response.success = false
        ∧ (assessTransaction env now uuid req).persisted = false)
      ∧ ((assessTransaction env now uuid req).persisted = true →
        (assessTransaction env now uuid req).response.success = false →
        (∃ e, env.invalidateResult = .error e) ∨ (∃ e, env.alertResult = .error e))) := by
  obtain ⟨agg, prof, mlsc, st, inv, al⟩ := env
  obtain ⟨ruid, rtx, rf⟩ := req
  simp only at htx
  subst htx
  refine ⟨?_, ?_, ?_, ?_, ?_, ?_⟩
  · intro e he
    simp only at he
    subst he
    simp [assessTransaction]
  · intro profile e hp hm
    simp only at hp hm
    subst hp
    subst hm
    simp [assessTransaction]
  · intro profile mls e hp hm hrange hst
    simp only at hp hm hst
    subst hp
    subst hm
    subst hst
    have hval := assessmentValid_of_pipeline agg tx profile mls hrange
    simp [assessTransaction, hval]
  · intro profile mls e hp hm hrange hst hinv
    simp only at hp hm hst hinv
    subst hp
    subst hm
    subst hst
    subst hinv
    have hval := assessmentValid_of_pipeline agg tx profile mls hrange
    simp [assessTransaction, hval]
  · intro profile mls e hp hm hrange hst hinv hlvl hal
    simp only at hp hm hst hinv hlvl hal
    subst hp
    subst hm
    subst hst
    subst hinv
    subst hal
    have hval := assessmentValid_of_pipeline agg tx profile mls hrange
    simp [assessTransaction, hval, hlvl]
  · cases prof with
    | error e => simp [assessTransaction]
    | ok profile =>
      cases mlsc with
      | error e => simp [assessTransaction]
      | ok ml =>
        by_cases hval : assessmentValid
            (calculateFinalScore (executeFraudRules agg tx profile) ml) ml
            (calculateConfidence (executeFraudRules agg tx profile) ml) = true
        · cases st with
          | error e => simp [assessTransaction, hval]
          | ok u =>
            cases u
            cases inv with
            | error e => simp [assessTransaction, hval]
            | ok u2 =>
              cases u2
              by_cases hr : determineRiskLevel
                  (calculateFinalScore (executeFraudRules agg tx profile) ml) = RiskLevel.HIGH
                  ∨ determineRiskLevel
                    (calculateFinalScore (executeFraudRules agg tx profile) ml) = RiskLevel.CRITICAL
              · cases al with
                | error e => simp [assessTransaction, hval, hr]
                | ok u3 =>
                  cases u3
                  simp [assessTransaction, hval, hr]
              · simp [assessTransaction, hval, hr]
        · simp [assessTransaction, hval]

/-- C5 amended witness: the theorem's post-persistence conjunct applied at
the concrete run whose cache-invalidation step fails: the response fails
with that message while the assessment stays persisted. -/
theorem C5_error_handling_amended_witness :
    (assessTransaction envInvalidateErr 0 "a1" req0).response.success = false
    ∧ (assessTransaction envInvalidateErr 0 "a1" req0).response.assessment = none
    ∧ (assessTransaction envInvalidateErr 0 "a1" req0).response.error
        = some "cache invalidation failed"
    ∧ (assessTransaction envInvalidateErr 0 "a1" req0).response.correlation_id
        = "fraud_" ++ toString 0
    ∧ (assessTransaction envInvalidateErr 0 "a1" req0).persisted = true :=
  (C5_error_handling_amended envInvalidateErr 0 "a1" req0 tx0 rfl).2.2.2.1
    profile0 none "cache invalidation failed" rfl rfl
    (fun m hm => Option.noConfusion hm) rfl rfl

/-- C9: when an individual rule evaluator raises, `_execute_fraud_rules`
records for that rule a non-triggered result with score 0 and an `error`
detail carrying the message, still returns one result per catalog rule, and
the assessment pipeline still succeeds when its other collaborators do —
a rule failure is never fatal to the assessment. -/
theorem C9_rule_failure_not_fatal :
    (∀ (env : AggEnv) (tx : Transaction) (profile : UserRiskProfile)
        (key : String) (cfg : RuleConfig) (e : String),
      (key, cfg) ∈ fraud_rules →
      evalRule env tx profile key cfg = some (.error e) →
      (⟨key, false, 0, [("error", DVal.s e)], 0⟩ : FraudRuleResult)
        ∈ executeFraudRules env tx profile)
    ∧ (∀ (env : AggEnv) (tx : Transaction) (profile : UserRiskProfile),
      (executeFraudRules env tx profile).length = 5)
    ∧ (∀ (env : PipelineEnv) (now : Nat) (uuid : String) (req : FraudDetectionRequest)
        (tx : Transaction) (profile : UserRiskProfile) (mls : Option ℚ),
      req.transaction = some tx → env.profile = .ok profile → env.mlScore = .ok mls →
      (∀ m, mls = some m → 0 ≤ m ∧ m ≤ 1) →
      env.storeResult = .ok () → env.invalidateResult = .ok () → env.alertResult = .ok () →
      (assessTransaction env now uuid req).response.success = true) := by
  refine ⟨?_, ?_, ?_⟩
  · intro env tx profile key cfg e hmem heval
    simp only [fraud_rules, List.mem_cons, List.not_mem_nil, or_false,
      Prod.mk.injEq] at hmem
    rcases hmem with ⟨rfl, rfl⟩ | ⟨rfl, rfl⟩ | ⟨rfl, rfl⟩ | ⟨rfl, rfl⟩ | ⟨rfl, rfl⟩
    · simp only [evalRule, if_true, Option.some.injEq] at heval
      rw [executeFraudRules_eq, heval]
      exact List.mem_cons_self _ _
    · simp [evalRule] at heval
    · simp [evalRule] at heval
      rw [executeFraudRules_eq, heval]
      exact List.mem_cons_of_mem _ (List.mem_cons_of_mem _ (List.mem_cons_self _ _))
    · simp [evalRule] at heval
      rw [executeFraudRules_eq, heval]
      exact List.mem_cons_of_mem _ (List.mem_cons_of_mem _
        (List.mem_cons_of_mem _ (List.mem_cons_self _ _)))
    · simp [evalRule] at heval
      rw [executeFraudRules_eq, heval]
      exact List.mem_cons_of_mem _ (List.mem_cons_of_mem _ (List.mem_cons_of_mem _
        (List.mem_cons_of_mem _ (List.mem_cons_self _ _))))
  · intro env tx profile
    rw [executeFraudRules_eq]
    rfl
  · intro env now uuid req tx profile mls h1 h2 h3 h4 h5 h6 h7
    exact assess_success_of_components env now uuid req tx profile mls h1 h2 h3 h4 h5 h6 h7

/-- C9 witness: the theorem applied to an aggregator whose transaction-count
query raises, failing the velocity rule, with all pipeline collaborators
succeeding. -/
theorem C9_rule_failure_not_fatal_witness :
    (⟨"velocity_check", false, 0,
        [("error", DVal.s "database connection lost")], 0⟩ : FraudRuleResult)
      ∈ executeFraudRules aggVelErr tx0 profile0
    ∧ (executeFraudRules aggVelErr tx0 profile0).length = 5
    ∧ (assessTransaction envVelErr 0 "a1" req0).response.success = true :=
  ⟨C9_rule_failure_not_fatal.1 aggVelErr tx0 profile0 "velocity_check" velocityCfg
      "database connection lost" (by simp [fraud_rules])
      (by simp [evalRule, checkVelocityRules, velocityLoop, velocity_checks, aggVelErr]),
   C9_rule_failure_not_fatal.2.1 aggVelErr tx0 profile0,
   C9_rule_failure_not_fatal.2.2 envVelErr 0 "a1" req0 tx0 profile0 none rfl rfl rfl
     (fun m hm => Option.noConfusion hm) rfl rfl rfl⟩

/-- C10: with the default catalog and built-in evaluators every rule result
has weighted score at most 0.27 < 0.5, so `_determine_action` over executed
rule results never resolves MANUAL_REVIEW and every assessment produced by
the pipeline has `requires_manual_review = false`. -/
theorem C10_no_manual_review :
    (∀ (env : AggEnv) (tx : Transaction) (profile : UserRiskProfile),
      ∀ r ∈ executeFraudRules env tx profile, r.score ≤ 27/100)
    ∧ (∀ (env : AggEnv) (tx : Transaction) (profile : UserRiskProfile)
        (s : ℚ) (lvl : RiskLevel),
      determineAction s lvl (executeFraudRules env tx profile) ≠ .MANUAL_REVIEW)
    ∧ (∀ (env : PipelineEnv) (now : Nat) (uuid : String) (req : FraudDetectionRequest)
        (a : FraudAssessment),
      (assessTransaction env now uuid req).response.assessment = some a →
      a.requires_manual_review = false) := by
  refine ⟨?_, ?_, ?_⟩
  · intro env tx profile r hr
    exact (executeFraudRules_score_le env tx profile r hr).2
  · intro env tx profile s lvl
    exact determineAction_ne_manual_review s lvl _
      (fun r hr => (executeFraudRules_score_le env tx profile r hr).2)
  · intro env now uuid req a h
    obtain ⟨tx, profile, mls, htx, hprof, hml, haction, hreq⟩ :=
      assess_some_shape env now uuid req a h
    rw [hreq, haction]
    exact decide_eq_false (determineAction_ne_manual_review _ _ _
      (fun r hr => (executeFraudRules_score_le env.agg tx profile r hr).2))

/-- C10 witness: the theorem applied to the benign aggregator run; the
geolocation entry (no location history) is among the executed results and
its weighted score is at most 0.27. -/
theorem C10_no_manual_review_witness :
    (⟨"GEOLOCATION_ANOMALY", false, 0,
        [("status", DVal.s "no_location_history")], 0⟩ : FraudRuleResult)
      ∈ executeFraudRules aggOk tx0 profile0
    ∧ (⟨"GEOLOCATION_ANOMALY", false, 0,
        [("status", DVal.s "no_location_history")], 0⟩ : FraudRuleResult).score ≤ 27/100 := by
  have hg : ruleOutcome "geolocation_anomaly"
      (checkGeolocationAnomaly aggOk.typicalLocations aggOk.dist tx0 geoCfg) =
      ⟨"GEOLOCATION_ANOMALY", false, 0,
        [("status", DVal.s "no_location_history")], 0⟩ := by
    simp [ruleOutcome, checkGeolocationAnomaly, aggOk, geoCfg]
  have hmem : (⟨"GEOLOCATION_ANOMALY", false, 0,
      [("status", DVal.s "no_location_history")], 0⟩ : FraudRuleResult)
      ∈ executeFraudRules aggOk tx0 profile0 := by
    rw [executeFraudRules_eq, hg]
    exact List.mem_cons_of_mem _ (List.mem_cons_of_mem _ (List.mem_cons_self _ _))
  exact ⟨hmem, C10_no_manual_review.1 aggOk tx0 profile0 _ hmem⟩
